import Mathlib

/-!
# Verification of the vite-plugin-node-worker module-graph rewriter

Shallow embedding of `src/index.js`.  Paths are modelled as POSIX strings,
the filesystem as an explicit list of file entries, and the stateful walker
as a state-passing function with an explicit fuel argument.  JavaScript
exceptions are modelled with `Except`; mutable per-walk maps (`cache`,
`active`, `esbuildCache`, the dev artifact store) are fields of an explicit
state record that is threaded through every call and survives thrown errors,
as the mutated JS objects do.
-/

namespace VNW

set_option maxRecDepth 16384

/-- Single-quote character (kept out of literals). -/
def squote : Char := Char.ofNat 39

/-- Double-quote character. -/
def dquote : Char := Char.ofNat 34

/-- Backtick character. -/
def btick : Char := Char.ofNat 96

/-- JS regex `\s` on the ASCII range (space, tab, line/page breaks). -/
def isWsChar (c : Char) : Bool :=
  c = ' ' || c = '\t' || c = '\n' || c = '\x0d' || c = '\x0b' || c = '\x0c'

/-- JS regex `\w`: ASCII letters, digits and underscore. -/
def isWordChar (c : Char) : Bool :=
  (c ≥ 'a' && c ≤ 'z') || (c ≥ 'A' && c ≤ 'Z') || (c ≥ '0' && c ≤ '9') || c = '_'

/-- Membership of a character in a quote pair, as in the regex class of
quotes used by `RE.importFrom` and friends. -/
def isQuote (c : Char) : Bool := c = squote || c = dquote

/-- `pre` is a prefix of `s` (model of `str.startsWith(pre)`). -/
def startsWithStr (s pre : String) : Bool := pre.data.isPrefixOf s.data

/-- `suf` is a suffix of `s` (model of `str.endsWith(suf)`). -/
def endsWithStr (s suf : String) : Bool := suf.data.isSuffixOf s.data

def hasInfixList (pat : List Char) : List Char → Bool
  | [] => pat.isEmpty
  | c :: rest => pat.isPrefixOf (c :: rest) || hasInfixList pat rest

/-- `sub` occurs somewhere in `s` (model of `str.includes(sub)`). -/
def containsSub (s sub : String) : Bool := hasInfixList sub.data s.data

/-- Lower-casing of a string, as in `ext.toLowerCase()` (ASCII inputs). -/
def lowerStr (s : String) : String := ⟨s.data.map Char.toLower⟩

/-- The POSIX path separator. -/
def pathSep : Char := '/'

def splitOnCharGo (c : Char) : List Char → List Char → List String
  | [], acc => [⟨acc.reverse⟩]
  | d :: rest, acc =>
    if d = c then ⟨acc.reverse⟩ :: splitOnCharGo c rest []
    else splitOnCharGo c rest (d :: acc)

/-- Split on a single-character separator (the string `split` used by the
path and query helpers). -/
def splitOnChar (c : Char) (s : String) : List String := splitOnCharGo c s.data []

/-- Association-list lookup (model of `Map.get`). -/
def lookupKV (l : List (String × String)) (k : String) : Option String :=
  (l.find? (fun e => e.1 = k)).map (·.2)

/-- Association-list update (model of `Map.set`, overwriting). -/
def setKV (l : List (String × String)) (k v : String) : List (String × String) :=
  if (l.find? (fun e => e.1 = k)).isSome then
    l.map (fun e => if e.1 = k then (k, v) else e)
  else l ++ [(k, v)]

/-! ## POSIX path model

`path` functions from Node are modelled on POSIX strings.  Drive letters and
Windows separators never appear in the modelled scenarios. -/

/-- Segment-level normalization of a path split on `/`: drops empty and `.`
segments and resolves `..` (model of the normalization done by
`path.resolve` / `path.posix` functions). -/
def normSegs : List String → List String → List String
  | [], acc => acc.reverse
  | s :: rest, acc =>
    if s = "" || s = "." then normSegs rest acc
    else if s = ".." then normSegs rest acc.tail
    else normSegs rest (s :: acc)

/-- Normalize an absolute POSIX path. -/
def normAbs (p : String) : String :=
  "/" ++ String.intercalate "/" (normSegs (splitOnChar pathSep p) [])

/-- Model of `path.resolve(base, p)` for an absolute `base`. -/
def pathResolve (base p : String) : String :=
  if startsWithStr p "/" then normAbs p else normAbs (base ++ "/" ++ p)

/-- Model of `path.isAbsolute` on POSIX. -/
def isAbsolute (p : String) : Bool := startsWithStr p "/"

/-- Model of `path.dirname` on POSIX for absolute paths. -/
def dirname (p : String) : String :=
  let segs := normSegs (splitOnChar pathSep p) []
  if segs.length ≤ 1 then "/"
  else "/" ++ String.intercalate "/" (segs.dropLast)

/-- Model of `path.join(a, b)` for a normalized `a` and a plain `b`. -/
def pathJoin (a b : String) : String := a ++ "/" ++ b

/-- Index of the last `.` in a string, if any. -/
def lastDotIdx (s : String) : Option Nat :=
  ((s.data.enum.filter (fun e => e.2 = '.')).getLast?).map (·.1)

/-- Model of `path.extname`: the extension of the basename, empty for
dotfiles and for `.`/`..`. -/
def extname (p : String) : String :=
  let b := (splitOnChar pathSep p).getLastD ""
  if b = "." || b = ".." then ""
  else
    match lastDotIdx b with
    | none => ""
    | some 0 => ""
    | some i => b.drop i

/-! ## Alias Table (`normalizeAliases` / `applyAliases`)

Alias rules are modelled with string patterns only; the `RegExp` branch of
`applyAliases` is outside the model (no claim involves a regex alias rule).
A string `find` matches as a prefix and is replaced, each rule applied in
order to the current (possibly already rewritten) value. -/

def applyAliases (spec : String) (aliases : List (String × String)) : String :=
  aliases.foldl
    (fun out rule =>
      if rule.1 = "" then out
      else if startsWithStr out rule.1 then rule.2 ++ out.drop rule.1.length
      else out)
    spec

/-! ## Filesystem model and extension probing -/

/-- One regular file of the modelled filesystem.  `readable` distinguishes a
file that exists (so `fs.existsSync`/`statSync` succeed) from one whose
`fs.readFileSync` throws (e.g. on permissions). -/
structure FileEntry where
  path : String
  content : String
  readable : Bool := true
  mtime : Nat := 0
deriving Repr, DecidableEq

/-- Model of `fileExists`: the path names a regular file. -/
def fileExistsFs (fs : List FileEntry) (p : String) : Bool :=
  fs.any (fun e => e.path = p)

def findFs (fs : List FileEntry) (p : String) : Option FileEntry :=
  fs.find? (fun e => e.path = p)

/-- The ordered probe-extension list `PROBE_EXTS` of `src/index.js:51`. -/
def PROBE_EXTS : List String := ["", ".ts", ".tsx", ".mts", ".cts", ".js", ".mjs", ".cjs"]

/-- Insertion-ordered deduplication, modelling iteration over a JS `Set`. -/
def dedupKeepFirst (l : List String) : List String :=
  (l.foldl (fun acc s => if s ∈ acc then acc else acc ++ [s]) [])

/-- Model of `tryResolveFileLike` (`src/index.js:61`): probe the base, then
extension swaps, then `index.<ext>` under the base as a directory; the first
existing regular file wins. -/
def tryResolveFileLike (fs : List FileEntry) (base : String) : Option String :=
  let ext := extname base
  let baseNoExt := if ext ≠ "" then base.take (base.length - ext.length) else base
  let cands :=
    if ext ≠ "" then
      [base, baseNoExt ++ ".ts", baseNoExt ++ ".tsx", baseNoExt ++ ".mts",
       baseNoExt ++ ".cts", baseNoExt ++ ".mjs", baseNoExt ++ ".cjs", baseNoExt ++ ".js"]
    else PROBE_EXTS.map (fun e => baseNoExt ++ e)
  let cands := cands ++ (PROBE_EXTS.drop 1).map (fun e => pathJoin base ("index" ++ e))
  (dedupKeepFirst cands).find? (fun c => fileExistsFs fs c)

/-- Model of `toFileURL`/`toURL`: `pathToFileURL(path.resolve(p)).href` for
an absolute URL-safe path (percent-encoding not modelled). -/
def toURL (p : String) : String := "file://" ++ p

/-! ## Specifier Resolver (`resolveToFs`, `src/index.js:138`)

The `resolveCache` map of the source memoizes a function that is pure given
a fixed filesystem and resolver, so it is omitted; `resolveToFs` is modelled
directly as that pure function.  The host resolver collaborator
(`env.pluginContainer.resolveId`) is a function parameter. -/

/-- Result of the host resolver collaborator (`pluginContainer.resolveId`). -/
structure RId where
  id : String
  external : Bool := false
deriving Repr, DecidableEq

def NODE_BUILTINS : List String :=
  ["assert", "buffer", "child_process", "cluster", "console", "constants",
   "crypto", "dgram", "diagnostics_channel", "dns", "domain", "events", "fs",
   "fs/promises", "http", "http2", "https", "module", "net", "os", "path",
   "perf_hooks", "process", "punycode", "querystring", "readline", "repl",
   "stream", "string_decoder", "sys", "timers", "tls", "tty", "url", "util",
   "v8", "vm", "wasi", "worker_threads", "zlib"]

/-- The context shared by one graph walk: project root, cache directory,
alias table, filesystem, the optional host resolver and transformer, and the
transpiler collaborator (`none` result = the transform threw). -/
structure Ctx where
  projectRoot : String
  cacheDir : String
  aliases : List (String × String)
  fs : List FileEntry
  resolveIdEnv : Option (String → String → Option RId)
  transformReq : Option (String → Option String)
  transpile : String → String → Option String

/-- Test for `/^(?:https?:|data:|deno:)/`. -/
def externalScheme (s : String) : Bool :=
  startsWithStr s "http:" || startsWithStr s "https:" || startsWithStr s "data:" || startsWithStr s "deno:"

/-- Bare-specifier test of `src/index.js:148` (no leading `.`, `/`,
`file:`, or drive letter). -/
def isBareSpec (s : String) : Bool :=
  !(startsWithStr s ".") && !(startsWithStr s "/") && !(startsWithStr s "file:") && !(isDrive s)
where
  /-- Test for `/^[A-Za-z]:\\/`. -/
  isDrive (s : String) : Bool :=
    match s.data with
    | c :: d :: e :: _ => ((c ≥ 'A' && c ≤ 'Z') || (c ≥ 'a' && c ≤ 'z')) && d = ':' && e = '\\'
    | _ => false

/-- Model of `new URL(spec).pathname` for a `file:` specifier. -/
def fileURLPath (s : String) : Option String :=
  if startsWithStr s "file://" then some (s.drop 7)
  else if startsWithStr s "file:" then some (s.drop 5)
  else none

/-- Tail of `resolveToFs` from `src/index.js:179`: `file:` handling,
defensive alias re-application, base-path computation and probing. -/
def resolveTail (ctx : Ctx) (spec fromFile : String) : Option String :=
  if startsWithStr spec "file:" then fileURLPath spec
  else
    let spec := applyAliases spec ctx.aliases
    let base :=
      if isAbsolute spec then
        (if startsWithStr spec "/" then pathResolve ctx.projectRoot (spec.drop 1) else spec)
      else if startsWithStr spec "." then pathResolve (dirname fromFile) spec
      else pathResolve ctx.projectRoot spec
    tryResolveFileLike ctx.fs base

/-- Model of `resolveToFs` (`src/index.js:138`). -/
def resolveToFs (ctx : Ctx) (spec fromFile : String) : Option String :=
  if spec = "" then none
  else if externalScheme spec then none
  else
    let noNodeSpec := if startsWithStr spec "node:" then spec.drop 5 else spec
    let bare := isBareSpec spec
    if bare && noNodeSpec ∈ NODE_BUILTINS then none
    else if bare then
      let aliased := applyAliases spec ctx.aliases
      if aliased ≠ spec then resolveTail ctx aliased fromFile
      else
        match ctx.resolveIdEnv with
        | some f =>
          match f spec fromFile with
          | some r =>
            if r.id = "" then none
            else if r.external then none
            else if startsWithStr r.id "node:" then none
            else if startsWithStr r.id "/@fs/" then some (r.id.drop 4)
            else if startsWithStr r.id "/@id/" then some r.id
            else if isAbsolute r.id || startsWithStr r.id "file:" then some r.id
            else some r.id
          | none => none
        | none => resolveTail ctx spec fromFile
    else resolveTail ctx spec fromFile

/-! ## Specifier scanning (the `RE` table, `src/index.js:97`)

Each regex of the `RE` table is modelled as a deterministic scanner over the
character list of the module text.  A hit records the length of the first
captured group (`p1len` — the splice offset used by `applyTripletRule`), the
captured specifier, and the total length of the full match (the scan resumes
after it, as the `g` flag does). -/

structure RawHit where
  p1len : Nat
  spec : String
  total : Nat
deriving Repr, DecidableEq

/-- One occurrence found by a pass: the splice start offset
(`m.index + m[1].length`) and the captured specifier. -/
structure TripMatch where
  start : Nat
  spec : String
deriving Repr, DecidableEq

/-- Consume an exact literal, returning the rest of the input. -/
def eatLit : List Char → List Char → Option (List Char)
  | [], s => some s
  | c :: cs, d :: ds => if d = c then eatLit cs ds else none
  | _ :: _, [] => none

/-- Greedy run of characters satisfying `p`: its length and the rest. -/
def spanCount (p : Char → Bool) (l : List Char) : Nat × List Char :=
  ((l.takeWhile p).length, l.dropWhile p)

/-- The specifier class `[^'"\n]`. -/
def specChar (c : Char) : Bool := !(isQuote c) && c ≠ '\n'

/-- Matcher for `RE.sideImport`: `(import\s*['"])([^'"\n]+)(['"])`. -/
def trySideImport (s : List Char) : Option RawHit := do
  let s1 ← eatLit "import".data s
  let (nws, s2) := spanCount isWsChar s1
  match s2 with
  | q :: s3 =>
    if isQuote q then
      let spec := s3.takeWhile specChar
      if spec.isEmpty then none
      else
        match s3.dropWhile specChar with
        | q2 :: _ =>
          if isQuote q2 then
            some { p1len := 6 + nws + 1, spec := ⟨spec⟩,
                   total := 6 + nws + 1 + spec.length + 1 }
          else none
        | [] => none
    else none
  | [] => none

/-- Matcher for the tail `from\s*['"]SPEC['"]` preceded by `\s*`, shared by
the import-from and export-from patterns.  Returns the length before the
specifier and the specifier characters. -/
def tryFromTail (s : List Char) : Option (Nat × List Char) := do
  let (n0, s0) := spanCount isWsChar s
  let s1 ← eatLit "from".data s0
  let (n2, s2) := spanCount isWsChar s1
  match s2 with
  | q :: s3 =>
    if isQuote q then
      let spec := s3.takeWhile specChar
      if spec.isEmpty then none
      else
        match s3.dropWhile specChar with
        | q2 :: _ => if isQuote q2 then some (n0 + 4 + n2 + 1, spec) else none
        | [] => none
    else none
  | [] => none

/-- The lazy filler `[^'";]*?` of `RE.importFrom`: at each position first try
the `from` tail (shortest filler wins); stop on a quote or semicolon. -/
def lazyFromLoop : List Char → Nat → Option (Nat × List Char)
  | [], _ => none
  | c :: rest, acc =>
    match tryFromTail (c :: rest) with
    | some (pre, spec) => some (acc + pre, spec)
    | none => if isQuote c || c = ';' then none else lazyFromLoop rest (acc + 1)

/-- Matcher for `RE.importFrom`:
`(import\s+[^'";]*?from\s*['"])([^'"\n]+)(['"])`. -/
def tryImportFrom (s : List Char) : Option RawHit := do
  let s1 ← eatLit "import".data s
  let (nws, s2) := spanCount isWsChar s1
  if nws = 0 then none
  else
    let (pre, spec) ← lazyFromLoop s2 0
    some { p1len := 6 + nws + pre, spec := ⟨spec⟩,
           total := 6 + nws + pre + spec.length + 1 }

/-- Matcher for `RE.dynImport`:
`(import\s*\(\s*['"])([^'"\n]+)(['"]\s*\))`.  Defined in the source's `RE`
table; `rewriteModule` never applies it. -/
def tryDynImport (s : List Char) : Option RawHit := do
  let s1 ← eatLit "import".data s
  let (n1, s2) := spanCount isWsChar s1
  match s2 with
  | '(' :: s3 =>
    let (n2, s4) := spanCount isWsChar s3
    match s4 with
    | q :: s5 =>
      if isQuote q then
        let spec := s5.takeWhile specChar
        if spec.isEmpty then none
        else
          match s5.dropWhile specChar with
          | q2 :: s7 =>
            if isQuote q2 then
              let (n3, s8) := spanCount isWsChar s7
              match s8 with
              | ')' :: _ =>
                some { p1len := 6 + n1 + 1 + n2 + 1, spec := ⟨spec⟩,
                       total := 6 + n1 + 1 + n2 + 1 + spec.length + 1 + n3 + 1 }
              | _ => none
            else none
          | [] => none
      else none
    | [] => none
  | _ => none

/-- The named-list alternative `\{[^}]*\}` of `RE.exportFrom`. -/
def tryBraceAlt : List Char → Option (Nat × List Char)
  | '{' :: s1 =>
    let inner := s1.takeWhile (fun c => c ≠ '}')
    match s1.dropWhile (fun c => c ≠ '}') with
    | '}' :: s2 => some (inner.length + 2, s2)
    | _ => none
  | _ => none

/-- The `\*\s+as\s+\w+` alternative of `RE.exportFrom`. -/
def tryStarAsAlt : List Char → Option (Nat × List Char)
  | '*' :: s1 => do
    let (n1, s2) := spanCount isWsChar s1
    if n1 = 0 then none
    else
      let s3 ← eatLit "as".data s2
      let (n2, s4) := spanCount isWsChar s3
      if n2 = 0 then none
      else
        let w := s4.takeWhile isWordChar
        if w.isEmpty then none
        else some (1 + n1 + 2 + n2 + w.length, s4.dropWhile isWordChar)
  | _ => none

/-- The bare `\*` alternative of `RE.exportFrom`. -/
def tryStarAlt : List Char → Option (Nat × List Char)
  | '*' :: s1 => some (1, s1)
  | _ => none

/-- The character class `[\w$,\s]` of the last `RE.exportFrom` alternative. -/
def exportClass (c : Char) : Bool := isWordChar c || c = '$' || c = ',' || isWsChar c

/-- Greedy `[\w$,\s]*` followed by the `from` tail, with regex backtracking:
the longest class run after which the tail still matches wins. -/
def backtrackFrom (s : List Char) : Nat → Option (Nat × Nat × List Char)
  | 0 =>
    match tryFromTail s with
    | some (pre, spec) => some (0, pre, spec)
    | none => none
  | k + 1 =>
    match tryFromTail (s.drop (k + 1)) with
    | some (pre, spec) => some (k + 1, pre, spec)
    | none => backtrackFrom s k

/-- The alternation of `RE.exportFrom` followed by the `from` tail, tried in
the regex's order with fallback to later alternatives when the tail fails. -/
def tryAltsFrom (s : List Char) (preLen : Nat) : Option RawHit :=
  let withTail (altLen : Nat) (rest : List Char) : Option RawHit :=
    match tryFromTail rest with
    | some (pre, spec) =>
      some { p1len := preLen + altLen + pre, spec := ⟨spec⟩,
             total := preLen + altLen + pre + spec.length + 1 }
    | none => none
  let a1 := match tryBraceAlt s with
            | some (n, rest) => withTail n rest
            | none => none
  match a1 with
  | some h => some h
  | none =>
    let a2 := match tryStarAsAlt s with
              | some (n, rest) => withTail n rest
              | none => none
    match a2 with
    | some h => some h
    | none =>
      let a3 := match tryStarAlt s with
                | some (n, rest) => withTail n rest
                | none => none
      match a3 with
      | some h => some h
      | none =>
        match backtrackFrom s (s.takeWhile exportClass).length with
        | some (k, pre, spec) =>
          some { p1len := preLen + k + pre, spec := ⟨spec⟩,
                 total := preLen + k + pre + spec.length + 1 }
        | none => none

/-- Matcher for `RE.exportFrom`:
`(export\s+(?:type\s+)?(?:\{[^}]*\}|\*\s+as\s+\w+|\*|[\w$,\s]*)\s*from\s*['"])([^'"\n]+)(['"])`. -/
def tryExportFrom (s : List Char) : Option RawHit := do
  let s1 ← eatLit "export".data s
  let (n1, s2) := spanCount isWsChar s1
  if n1 = 0 then none
  else
    let withType : Option RawHit :=
      match eatLit "type".data s2 with
      | some s3 =>
        let (n2, s4) := spanCount isWsChar s3
        if n2 = 0 then none else tryAltsFrom s4 (6 + n1 + 4 + n2)
      | none => none
    match withType with
    | some h => some h
    | none => tryAltsFrom s2 (6 + n1)

/-- The character class of the tilde-alias catch-all pass: word characters,
`@`, `.`, `-` and the path separator. -/
def tildeClass (c : Char) : Bool :=
  isWordChar c || c = '@' || c = '.' || c = '/' || c = '-'

/-- Matcher for the catch-all pass of `src/index.js:334`: a quote, the two
characters `~` and the separator, one or more `tildeClass` characters, and a
closing quote; the captured specifier is everything between the quotes. -/
def tryTilde (s : List Char) : Option RawHit :=
  match s with
  | q :: '~' :: '/' :: s1 =>
    if isQuote q then
      let run := s1.takeWhile tildeClass
      if run.isEmpty then none
      else
        match s1.dropWhile tildeClass with
        | q2 :: _ =>
          if isQuote q2 then
            some { p1len := 1, spec := ⟨'~' :: '/' :: run⟩,
                   total := 1 + 2 + run.length + 1 }
          else none
        | [] => none
    else none
  | _ => none

/-- Matcher for the absolute-`node_modules` pass
`(['"])\/(node_modules\/[^'"\n]+)(['"])` (`src/index.js:344`).  `m[1]` is
only the quote and the literal `\/` sits between the groups, so the splice
offset (group-1 length) is 1 while the captured specifier starts one
character later — the source's span arithmetic is reproduced as is. -/
def tryNodeModules (s : List Char) : Option RawHit :=
  match s with
  | q :: '/' :: s1 =>
    if isQuote q then
      match eatLit "node_modules/".data s1 with
      | some s2 =>
        let run := s2.takeWhile specChar
        if run.isEmpty then none
        else
          match s2.dropWhile specChar with
          | q2 :: _ =>
            if isQuote q2 then
              some { p1len := 1, spec := ⟨"node_modules/".data ++ run⟩,
                     total := 1 + 1 + 13 + run.length + 1 }
            else none
          | [] => none
      | none => none
    else none
  | _ => none

/-- Scan driver: left-to-right non-overlapping matches, resuming after each
full match, as `matchAll` with the `g` flag does. -/
def scanGo (tryAt : List Char → Option RawHit) : Nat → List Char → Nat → List TripMatch
  | 0, _, _ => []
  | _ + 1, [], _ => []
  | fuel + 1, c :: rest, pos =>
    match tryAt (c :: rest) with
    | some h =>
      let adv := max 1 h.total
      { start := pos + h.p1len, spec := h.spec } ::
        scanGo tryAt fuel (List.drop adv (c :: rest)) (pos + adv)
    | none => scanGo tryAt fuel rest (pos + 1)

def scanAll (tryAt : List Char → Option RawHit) (s : String) : List TripMatch :=
  scanGo tryAt s.data.length s.data 0

def scanSideImport (s : String) : List TripMatch := scanAll trySideImport s
def scanImportFrom (s : String) : List TripMatch := scanAll tryImportFrom s
def scanExportFrom (s : String) : List TripMatch := scanAll tryExportFrom s
def scanDynImport (s : String) : List TripMatch := scanAll tryDynImport s
def scanTilde (s : String) : List TripMatch := scanAll tryTilde s
def scanNodeModules (s : String) : List TripMatch := scanAll tryNodeModules s

/-- Splice a list of `(start, end, replacement)` edits, given in ascending
position order over the original text, into the text.  This models the
fresh per-chunk `MagicString` of `generateBundle` (`src/index.js:545`),
where a single scan produces non-overlapping edits whose coordinates all
refer to the scanned text itself. -/
def spliceGo : List Char → Nat → List (Nat × Nat × String) → List Char
  | cs, _, [] => cs
  | cs, pos, (st, en, r) :: rest =>
    cs.take (st - pos) ++ r.data ++ spliceGo (cs.drop (en - pos)) en rest

def spliceEdits (s : String) (edits : List (Nat × Nat × String)) : String :=
  ⟨spliceGo s.data 0 edits⟩

/-! ## Graph Walker state (`rewriteEntryAliasesToFile`, `src/index.js:108`)

The per-walk mutable maps are one explicit state record.  `reads`,
`transpiles` and `writes` record the side effects performed, in order, so
that at-most-once properties are statable.  JS exceptions do not undo
mutations of the walk's maps, so every function returns the state next to an
`Except` result. -/

structure St where
  cache : List (String × String) := []
  active : List String := []
  esb : List (String × Nat × String) := []
  devStore : List (String × String) := []
  reads : List String := []
  transpiles : List String := []
  writes : List String := []
deriving Repr, DecidableEq

inductive Err where
  | readFailure (p : String)
  | msError (msg : String)
  | fuel
deriving Repr, DecidableEq

def setCache (st : St) (k v : String) : St := { st with cache := setKV st.cache k v }
def addActive (st : St) (p : String) : St := { st with active := p :: st.active }
def delActive (st : St) (p : String) : St := { st with active := st.active.filter (· ≠ p) }

/-- The asset-suffix test of `src/index.js:202`
(case-insensitively matching data/style/image extensions at the end). -/
def SKIP_SUFFIXES : List String :=
  [".json", ".css", ".scss", ".sass", ".less", ".svg", ".png", ".jpg", ".jpeg", ".gif", ".webp"]

def skipExt (p : String) : Bool :=
  SKIP_SUFFIXES.any (fun suf => endsWithStr (lowerStr p) suf)

def isTsLike (ext : String) : Bool :=
  ext = ".ts" || ext = ".tsx" || ext = ".mts" || ext = ".cts"

def lookupEsb (l : List (String × Nat × String)) (k : String) : Option (Nat × String) :=
  (l.find? (fun e => e.1 = k)).map (·.2)

def setEsb (l : List (String × Nat × String)) (k : String) (mt : Nat) (c : String) :
    List (String × Nat × String) :=
  if (l.find? (fun e => e.1 = k)).isSome then
    l.map (fun e => if e.1 = k then (k, mt, c) else e)
  else l ++ [(k, mt, c)]

/-- Result of the read-and-transpile phase of `rewriteModule`
(`src/index.js:222-279`): either an early-return URL (virtual-id paths that
cannot or need not be transformed) or source text to rewrite. -/
inductive ReadRes where
  | early (url : String)
  | src (code : String)
deriving Repr, DecidableEq

/-- The TS transpilation step (`src/index.js:251-265`): a throwing transform
(`none`) is logged and the original text kept; a falsy output code is also
ignored.  A successful output is memoized by `(path, mtime)`. -/
def transpileStep (ctx : Ctx) (st : St) (p : String) (entry : FileEntry) :
    Except Err ReadRes × St :=
  let st := { st with transpiles := st.transpiles ++ [p] }
  match ctx.transpile entry.content p with
  | some c =>
    if c ≠ "" then (.ok (.src c), { st with esb := setEsb st.esb p entry.mtime c })
    else (.ok (.src entry.content), st)
  | none => (.ok (.src entry.content), st)

/-- The read phase of `rewriteModule`: virtual ids go through the optional
`transformRequest`, everything else through `readFileSync` (a missing or
unreadable file throws) followed by TS transpilation with the
mtime-keyed cache. -/
def readPhase (ctx : Ctx) (st : St) (p : String) (isVirtual : Bool) :
    Except Err ReadRes × St :=
  if isVirtual then
    match ctx.transformReq with
    | none => let url := toURL p; (.ok (.early url), setCache st p url)
    | some tr =>
      match tr p with
      | none => let url := toURL p; (.ok (.early url), setCache st p url)
      | some c =>
        if c = "" then let url := toURL p; (.ok (.early url), setCache st p url)
        else (.ok (.src c), st)
  else
    match findFs ctx.fs p with
    | none => (.error (.readFailure p), st)
    | some entry =>
      if !entry.readable then (.error (.readFailure p), st)
      else
        let st := { st with reads := st.reads ++ [p] }
        let ext := lowerStr (extname p)
        if isTsLike ext then
          match lookupEsb st.esb p with
          | some (mt, c) =>
            if mt = entry.mtime then (.ok (.src c), st)
            else transpileStep ctx st p entry
          | none => transpileStep ctx st p entry
        else (.ok (.src entry.content), st)

/-! ### The shared MagicString buffer

`rewriteModule` builds *one* `MagicString` over the original module text
(`src/index.js:286`) and shares it across all five passes, while each pass
recomputes match indices on the current, re-rendered `out`
(`src/index.js:288-302`).  Overwrite positions are therefore interpreted in
*original* coordinates even when an earlier pass already changed lengths;
like the library, the model throws `end is out of bounds` when the shifted
end exceeds the original length, and refuses to split inside an
already-edited chunk.  The buffer is modelled at the chunk level, as in the
library: a contiguous list of ranges of the original text, each either
intact or edited to a replacement string. -/

/-- One chunk of the `MagicString` buffer: the original range
`[cstart, cend)`, either intact or edited to `content` (splitting an edited
chunk keeps both halves edited with empty content, as `Chunk.split`
does). -/
structure MSChunk where
  cstart : Nat
  cend : Nat
  content : String
  edited : Bool
deriving Repr, DecidableEq

/-- The `MagicString` buffer: the original text and its chunk list in
original coordinates. -/
structure MS where
  original : List Char
  chunks : List MSChunk
deriving Repr, DecidableEq

/-- `new MagicString(out)` over the original module text. -/
def msInit (s : String) : MS := ⟨s.data, [⟨0, s.data.length, "", false⟩]⟩

def msRenderChunk (orig : List Char) (c : MSChunk) : List Char :=
  if c.edited then c.content.data
  else (orig.drop c.cstart).take (c.cend - c.cstart)

/-- `ms.toString()`: edited chunks render their content, intact chunks their
original slice. -/
def msRender (ms : MS) : String :=
  ⟨(ms.chunks.map (msRenderChunk ms.original)).flatten⟩

/-- `_split(index)`: a chunk boundary is a no-op; a position strictly inside
an edited chunk with nonempty content throws; otherwise the chunk is split
in two. -/
def msSplitGo (pos : Nat) : List MSChunk → Except Err (List MSChunk)
  | [] => .ok []
  | c :: rest =>
    if c.cstart < pos && pos < c.cend then
      if c.edited && c.content ≠ "" then
        .error (.msError "Cannot split a chunk that has already been edited")
      else
        .ok (⟨c.cstart, pos, "", c.edited⟩ :: ⟨pos, c.cend, "", c.edited⟩ :: rest)
    else
      match msSplitGo pos rest with
      | .error e => .error e
      | .ok rest' => .ok (c :: rest')

def msSplit (ms : MS) (pos : Nat) : Except Err MS :=
  match msSplitGo pos ms.chunks with
  | .error e => .error e
  | .ok cs => .ok ⟨ms.original, cs⟩

/-- `ms.overwrite(start, end, content, { contentOnly: true })`
(`MagicString.update`): an end beyond the original length throws
`end is out of bounds`; a zero-length range throws; otherwise both ends are
split and every chunk inside the range is blanked, the first carrying the
replacement. -/
def msOverwrite (ms : MS) (start fin : Nat) (content : String) : Except Err MS :=
  if fin > ms.original.length then .error (.msError "end is out of bounds")
  else if start = fin then .error (.msError "Cannot overwrite a zero-length range")
  else
    match msSplit ms start with
    | .error e => .error e
    | .ok ms1 =>
      match msSplit ms1 fin with
      | .error e => .error e
      | .ok ms2 =>
        .ok ⟨ms2.original, ms2.chunks.map (fun c =>
          if c.cstart = start && c.cend ≤ fin then ⟨c.cstart, c.cend, content, true⟩
          else if start ≤ c.cstart && c.cend ≤ fin then ⟨c.cstart, c.cend, "", true⟩
          else c)⟩

/-- Fold of `applyTripletRule` over the matches of one pass: resolve each
specifier and overwrite the span
`[m.index + m[1].length, start + spec.length)` in the shared buffer whenever
the replacement is truthy and differs from the specifier.  The buffer is
returned also on the error path, holding the overwrites made before the
throw, as the mutated JS object does. -/
def applyPassGo (resolver : St → String → Except Err String × St) :
    List TripMatch → St → MS → Except Err Unit × MS × St
  | [], st, ms => (.ok (), ms, st)
  | m :: rest, st, ms =>
    match resolver st m.spec with
    | (.error e, st) => (.error e, ms, st)
    | (.ok repl, st) =>
      if repl ≠ "" && repl ≠ m.spec then
        match msOverwrite ms m.start (m.start + m.spec.length) repl with
        | .error e => (.error e, ms, st)
        | .ok ms' => applyPassGo resolver rest st ms'
      else applyPassGo resolver rest st ms

/-- Model of one `applyTripletRule` call (`src/index.js:288-303`): scan the
current text, overwrite each resolved match in the shared buffer at the
scanned indices (original coordinates to the buffer), and re-render the text
from the buffer at the end of the pass. -/
def applyTripletRule (matcher : String → List TripMatch)
    (resolver : St → String → Except Err String × St)
    (text : String) (ms : MS) (st : St) : Except Err String × MS × St :=
  match applyPassGo resolver (matcher text) st ms with
  | (.error e, ms, st) => (.error e, ms, st)
  | (.ok _, ms, st) => (.ok (msRender ms), ms, st)

/-- The per-specifier resolver of the three structured import passes
(`src/index.js:305-322`): unresolvable or self-referring specifiers are left
as they are, other targets are recursively rewritten. -/
def childResolver (ctx : Ctx) (rewriteChild : St → String → Except Err String × St)
    (fromFile : String) (st : St) (spec : String) : Except Err String × St :=
  match resolveToFs ctx spec fromFile with
  | none => (.ok spec, st)
  | some c => if c = fromFile then (.ok spec, st) else rewriteChild st c

/-- The tilde catch-all resolver (`src/index.js:334-338`): a resolvable
target is replaced by a direct file URL, without recursion. -/
def tildeResolver (ctx : Ctx) (fromFile : String) (st : St) (spec : String) :
    Except Err String × St :=
  match resolveToFs ctx spec fromFile with
  | none => (.ok spec, st)
  | some c => (.ok (toURL c), st)

/-- The absolute-`node_modules` resolver (`src/index.js:344-355`): consult
the host resolver first, then fall back to filesystem probing. -/
def nmResolver (ctx : Ctx) (rewriteChild : St → String → Except Err String × St)
    (fromFile : String) (st : St) (spec : String) : Except Err String × St :=
  let full := "/" ++ spec
  let fallback := fun (st : St) =>
    match resolveToFs ctx full fromFile with
    | some c => rewriteChild st c
    | none => (Except.ok full, st)
  match ctx.resolveIdEnv with
  | some f =>
    match f full fromFile with
    | some r =>
      if r.external then (.ok full, st)
      else if startsWithStr r.id "/@fs/" then rewriteChild st (r.id.drop 4)
      else if startsWithStr r.id "/@id/" then rewriteChild st r.id
      else if r.id ≠ "" && (isAbsolute r.id || startsWithStr r.id "file:") then rewriteChild st r.id
      else fallback st
    | none => fallback st
  | none => fallback st

/-- Quote class of the safety normalization, which also accepts template
literals. -/
def isQuoteB (c : Char) : Bool := isQuote c || c = btick

def nmSafeChar (c : Char) : Bool := !(isQuoteB c) && c ≠ '\n'

/-- Matcher for the stray-`node_modules` safety normalization
(`src/index.js:365`): full-match length, captured path, and both quotes. -/
def tryNmSafe (s : List Char) : Option (Nat × String × Char × Char) :=
  match s with
  | q :: '/' :: s1 =>
    if isQuoteB q then
      match eatLit "node_modules/".data s1 with
      | some s2 =>
        let run := s2.takeWhile nmSafeChar
        if run.isEmpty then none
        else
          match s2.dropWhile nmSafeChar with
          | q2 :: _ =>
            if isQuoteB q2 then
              some (1 + 1 + 13 + run.length + 1, ⟨"node_modules/".data ++ run⟩, q, q2)
            else none
          | [] => none
      | none => none
    else none
  | _ => none

def nmSafetyGo (ctx : Ctx) : Nat → List Char → List Char
  | 0, cs => cs
  | _ + 1, [] => []
  | fuel + 1, c :: rest =>
    match tryNmSafe (c :: rest) with
    | some (total, spec, q1, q3) =>
      let abs := pathResolve ctx.projectRoot spec
      let probed := (tryResolveFileLike ctx.fs abs).getD abs
      (q1 :: (toURL probed).data ++ [q3]) ++ nmSafetyGo ctx fuel (List.drop total (c :: rest))
    | none => c :: nmSafetyGo ctx fuel rest

/-- The replace-all safety normalization for stray `/node_modules/...`
strings (`src/index.js:365-369`): the whole quoted occurrence is replaced by
the same quotes around a file URL of the probed path. -/
def nodeModulesSafety (ctx : Ctx) (s : String) : String :=
  ⟨nmSafetyGo ctx s.data.length s.data⟩

/-- The SSR-helper shims (`src/index.js:373-378`). -/
def ssrShim (out : String) : String :=
  let out :=
    if containsSub out "__vite_ssr_import__" then
      "async function __vite_ssr_import__(u)\x7b return import(u); \x7d\n" ++ out
    else out
  if containsSub out "__vite_ssr_dynamic_import__" then
    "async function __vite_ssr_dynamic_import__(u)\x7b return import(u); \x7d\n" ++ out
  else out

/-- `sha1` is modelled as an injective encoding of its input string; the
hex digest and its truncation to 12 characters (`src/index.js:381`) are not
modelled, since their collision-freeness is a probabilistic assumption
outside the embedding. -/
def sha1 (s : String) : String := s

/-- The content-addressed artifact location: `DEV_CACHE_DIR` joined with the
hash of `(original path, final text)` and the `.mjs` extension. -/
def artifactFile (cacheDir p out : String) : String :=
  cacheDir ++ "/" ++ sha1 (p ++ "|" ++ out) ++ ".mjs"

/-- The emit step (`src/index.js:380-391`): write-once,
check-exists-before-write; the written artifact carries a trailing
`sourceURL` marker pointing at the original path.  The artifact store is the
dev cache directory, disjoint from the source tree. -/
def emitArtifact (ctx : Ctx) (p out : String) (st : St) : String × St :=
  let outFile := artifactFile ctx.cacheDir p out
  if (lookupKV st.devStore outFile).isSome then (toURL outFile, st)
  else
    (toURL outFile,
     { st with
        devStore := st.devStore ++ [(outFile, out ++ "\n//# sourceURL=" ++ toURL p)],
        writes := st.writes ++ [outFile] })

/-- The five specifier passes of `rewriteModule`, in source order
(`src/index.js:286-355`), all sharing one buffer built over the original
text; only the export-from pass runs under a swallow-and-continue
`try`/`catch`, which keeps the previous `out` but retains the buffer (with
any overwrites made before the throw) and the state mutations, as the JS
closure variables do. -/
def runPasses (ctx : Ctx) (rewriteChild : St → String → Except Err String × St)
    (fromFile : String) (code : String) (st : St) : Except Err String × St :=
  let r := childResolver ctx rewriteChild fromFile
  match applyTripletRule scanSideImport r code (msInit code) st with
  | (.error e, _, st) => (.error e, st)
  | (.ok out1, ms1, st) =>
    match applyTripletRule scanImportFrom r out1 ms1 st with
    | (.error e, _, st) => (.error e, st)
    | (.ok out2, ms2, st) =>
      let r3 := applyTripletRule scanExportFrom r out2 ms2 st
      let out3 := match r3.1 with | .ok o => o | .error _ => out2
      match applyTripletRule scanTilde (tildeResolver ctx fromFile) out3 r3.2.1 r3.2.2 with
      | (.error e, _, st) => (.error e, st)
      | (.ok out4, ms4, st) =>
        match applyTripletRule scanNodeModules (nmResolver ctx rewriteChild fromFile)
            out4 ms4 st with
        | (.error e, _, st) => (.error e, st)
        | (.ok out5, _, st) => (.ok out5, st)

/-- Model of `rewriteModule` (`src/index.js:201-395`), with an explicit fuel
bound on the recursion depth.  Mirrors the source order: asset-kind skip,
cycle guard on `active`, memo lookup, `/@fs/` strip, read/transpile,
optimistic original-URL memo entry, `active` marking, the five passes, the
safety normalizations, artifact emission, and the `finally`-scoped
`active` release (also on the error path). -/
def rewriteStep (ctx : Ctx) (recur : St → String → Except Err String × St)
    (st : St) (p : String) : Except Err String × St :=
  if skipExt p then
    let url := toURL p
    (.ok url, setCache st p url)
  else if p ∈ st.active then (.ok (toURL p), st)
  else
    match lookupKV st.cache p with
    | some u => (.ok u, st)
    | none =>
      let isVirtual := startsWithStr p "/@id/" || startsWithStr p "\x00" || startsWithStr p "virtual:"
      let p1 := if startsWithStr p "/@fs/" then p.drop 4 else p
      match readPhase ctx st p1 isVirtual with
      | (.error e, st) => (.error e, st)
      | (.ok (.early url), st) => (.ok url, st)
      | (.ok (.src code), st) =>
        let st := addActive (setCache st p1 (toURL p1)) p1
        match runPasses ctx recur p1 code st with
        | (.error e, st) => (.error e, delActive st p1)
        | (.ok out, st) =>
          let out := nodeModulesSafety ctx out
          let out := ssrShim out
          let (url, st) := emitArtifact ctx p1 out st
          (.ok url, delActive (setCache st p1 url) p1)

/-- The recursive walker: `rewriteStep` tied through a fuel bound on the
recursion depth (the source recursion has no such bound; a walk needing
depth beyond the fuel yields `Err.fuel`). -/
def rewriteModule (ctx : Ctx) : Nat → St → String → Except Err String × St
  | 0, st, _ => (.error .fuel, st)
  | fuel + 1, st, p => rewriteStep ctx (fun st q => rewriteModule ctx fuel st q) st p

/-- Model of `rewriteEntryAliasesToFile` (`src/index.js:108`): one walk from
a fresh per-walk state, returning the entry's output URL. -/
def rewriteEntry (ctx : Ctx) (fuel : Nat) (entryFile : String) :
    Except Err String × St :=
  rewriteModule ctx fuel {} entryFile

/-! ## Build-mode placeholder substitution (`generateBundle`, `src/index.js:538`) -/

/-- Model of `path.posix.dirname` for bundle-relative names. -/
def posixDirname (p : String) : String :=
  match splitOnChar pathSep p with
  | [] => "."
  | [_] => "."
  | segs =>
    let d := segs.dropLast
    if d = [""] then "/" else String.intercalate "/" d

/-- Vite's `normalizePath` (identity on POSIX slash-separated paths). -/
def normalizePath (p : String) : String := p

def joinRel (f t : List String) : String :=
  String.intercalate "/" (f.map (fun _ => "..") ++ t)

def dropCommonSegs : List String → List String → String
  | a :: as, b :: bs => if a = b then dropCommonSegs as bs else joinRel (a :: as) (b :: bs)
  | as, bs => joinRel as bs

/-- Model of `path.posix.relative` on normalized inputs. -/
def posixRelative (fromDir toFile : String) : String :=
  dropCommonSegs (normSegs (splitOnChar pathSep fromDir) []) (normSegs (splitOnChar pathSep toFile) [])

/-- Model of `toRelativePath` (`src/index.js:40`). -/
def toRelativePath (filename importer : String) : String :=
  let norm := normalizePath (posixRelative (posixDirname importer) filename)
  if startsWithStr norm "." then norm else "./" ++ norm

/-- The placeholder prefix of `nodeWorkerAssetUrlRE` (`src/index.js:95`). -/
def ASSET_TOKEN : String := "__VITE_NODE_WORKER_ASSET__"

/-- The reference-id class `[\w$]`. -/
def refClass (c : Char) : Bool := isWordChar c || c = '$'

/-- The rightmost position of a double underscore inside the greedy class
run — the backtracking of `[\w$]+` followed by the literal `__`. -/
def lastDoubleUnderscore (m : List Char) : Option Nat :=
  ((List.range m.length).filter
    (fun i => 1 ≤ i && i + 1 < m.length && m.getD i ' ' = '_' && m.getD (i + 1) ' ' = '_')).getLast?

/-- Matcher for `nodeWorkerAssetUrlRE` at one position: total length of the
full match and the captured reference id. -/
def tryAssetRef (s : List Char) : Option (Nat × String) := do
  let s1 ← eatLit ASSET_TOKEN.data s
  let m := s1.takeWhile refClass
  let i ← lastDoubleUnderscore m
  some (26 + i + 2, ⟨m.take i⟩)

def scanAssetGo : Nat → List Char → Nat → List (Nat × Nat × String)
  | 0, _, _ => []
  | _ + 1, [], _ => []
  | fuel + 1, c :: rest, pos =>
    match tryAssetRef (c :: rest) with
    | some (total, ref) =>
      (pos, pos + total, ref) :: scanAssetGo fuel (List.drop total (c :: rest)) (pos + total)
    | none => scanAssetGo fuel rest (pos + 1)

/-- All placeholder occurrences in a chunk: `(start, end, refId)`. -/
def scanAssetRefs (s : String) : List (Nat × Nat × String) :=
  scanAssetGo s.data.length s.data 0

structure BundleItem where
  fileName : String
  isChunk : Bool
  code : String
deriving Repr, DecidableEq

/-- `JSON.stringify` of a string with no escapable characters (bundle paths
are URL-safe in the modelled scenarios). -/
def jsonQuote (s : String) : String := ⟨dquote :: s.data ++ [dquote]⟩

/-- Substitution over one finalized output (`src/index.js:540-562`):
each placeholder whose reference id is known to the bundler
(`this.getFileName` succeeds) is overwritten once with the quoted relative
path; an unknown reference id is skipped without throwing, leaving the
placeholder in place. -/
def substChunk (getFileName : String → Option String) (b : BundleItem) : BundleItem :=
  if !b.isChunk then b
  else if (scanAssetRefs b.code).isEmpty then b
  else
    let edits := (scanAssetRefs b.code).filterMap (fun e =>
      match getFileName e.2.2 with
      | none => none
      | some wn => some (e.1, e.2.1, jsonQuote (toRelativePath wn b.fileName)))
    { b with code := spliceEdits b.code edits }

/-- Model of the `generateBundle` hook. -/
def generateBundle (getFileName : String → Option String) (bundle : List BundleItem) :
    List BundleItem :=
  bundle.map (substChunk getFileName)

/-! ## Request recognition (`parseRequest`, `resolveId`, `load`) -/

def takeUntilChar (c : Char) (s : String) : String := ⟨s.data.takeWhile (· ≠ c)⟩

/-- Model of `cleanUrl` (`src/index.js:49`): strip the fragment, then the
query. -/
def cleanUrl (s : String) : String := takeUntilChar '?' (takeUntilChar '#' s)

/-- `URLSearchParams` parsing of a query string (percent-decoding is not
modelled; the modelled ids use plain characters). -/
def parseParams (qs : String) : List (String × String) :=
  (splitOnChar '&' qs).filterMap (fun part =>
    if part = "" then none
    else
      let k := part.data.takeWhile (· ≠ '=')
      let v := part.data.dropWhile (· ≠ '=')
      some (⟨k⟩, match v with | [] => "" | _ :: t => (⟨t⟩ : String)))

/-- Model of `parseRequest` (`src/index.js:567`): the query of
`new URL(id, "file:")` as a parameter list, `none` when the search string is
empty. -/
def parseRequest (id : String) : Option (List (String × String)) :=
  let noHash := takeUntilChar '#' id
  match noHash.data.dropWhile (· ≠ '?') with
  | [] => none
  | _ :: qs => if qs.isEmpty then none else some (parseParams ⟨qs⟩)

/-- Last-wins parameter lookup (`Object.fromEntries`). -/
def qGet (q : List (String × String)) (k : String) : Option String :=
  ((q.filter (fun e => e.1 = k)).getLast?).map (·.2)

def qHas (q : List (String × String)) (k : String) : Bool := (qGet q k).isSome

/-- Model of the `resolveId` hook (`src/index.js:425`). -/
def resolveIdHook (id importer : String) : Option String :=
  match parseRequest id with
  | none => none
  | some q =>
    if qHas q "nodeWorker" || qHas q "modulePath" then
      some (id ++ "&importer=" ++ importer)
    else none

/-- The result of a successful `load` (`src/index.js:498-528`): the
generated module texts are represented by the values interpolated into
them. -/
inductive LoadResult where
  | modulePathServe (url : String)
  | nodeWorkerServe (url : String)
  | modulePathBuild (assetRefId : String)
  | nodeWorkerBuild (assetRefId : String)
deriving Repr, DecidableEq

/-- Context of the `load` hook: serve/build mode, the project root, the
host's `this.resolve` in its plain and `skipSelf` variants, the walk context
(whose filesystem also answers the candidate existence probes), the walk
fuel, and the bundler's `emitFile` (build mode), abstracted as a function
from the emitted id to an opaque reference id. -/
structure LoadCtx where
  isServe : Bool
  root : String
  thisResolve : String → String → Option String
  thisResolveSkipSelf : String → String → Option String
  walkCtx : Ctx
  fuel : Nat
  emitFileRef : String → String

/-- `new URL(entryURL).pathname` for a file URL. -/
def urlPathname (u : String) : String := if startsWithStr u "file://" then u.drop 7 else u

/-- Model of the `load` hook (`src/index.js:433-530`): requests without a
query or without a truthy `importer` parameter (the source checks
`!query.importer`, so an empty value also falls through) return nothing
immediately; otherwise the entry
is located through the candidate list of lines 440-467, dev mode rewrites
the graph (failures degrade to the unrewritten entry) and answers only the
`modulePath`/`nodeWorker` suffixes, build mode emits a chunk and a
placeholder for those suffixes; every other request returns nothing. -/
def loadHook (lc : LoadCtx) (id : String) : Option LoadResult :=
  match parseRequest id with
  | none => none
  | some q =>
    match qGet q "importer" with
    | none => none
    | some importer =>
      if importer = "" then none
      else
      let cleanPath := cleanUrl id
      let importerFile := takeUntilChar '?' importer
      let resolved := lc.thisResolve cleanPath importerFile
      let tryPaths1 := match resolved with
        | some rid => [takeUntilChar '?' rid]
        | none => []
      let tryPaths2 := match lc.thisResolveSkipSelf cleanPath importerFile with
        | some rid2 =>
          if (match resolved with | some rid => decide (rid2 ≠ rid) | none => true) then
            takeUntilChar '?' rid2 :: tryPaths1
          else tryPaths1
        | none => tryPaths1
      let tryPaths3 := tryPaths2 ++
        (if !(startsWithStr cleanPath "/") then [pathResolve (dirname importerFile) cleanPath]
         else [pathResolve lc.root (cleanPath.drop 1)])
      let tryPaths := tryPaths3 ++ [pathResolve lc.root cleanPath]
      let absId0 := (tryPaths.find? (fun p => fileExistsFs lc.walkCtx.fs p)).getD
        (takeUntilChar '?' (resolved.getD cleanPath))
      if lc.isServe then
        let absId := match (rewriteEntry lc.walkCtx lc.fuel absId0).1 with
          | .ok u => urlPathname u
          | .error _ => absId0
        if qHas q "modulePath" then some (.modulePathServe (toURL absId))
        else if qHas q "nodeWorker" then some (.nodeWorkerServe (toURL absId))
        else none
      else
        if qHas q "nodeWorker" || qHas q "modulePath" then
          let refId := lc.emitFileRef absId0
          let assetRefId := ASSET_TOKEN ++ refId ++ "__"
          if qHas q "modulePath" then some (.modulePathBuild assetRefId)
          else some (.nodeWorkerBuild assetRefId)
        else none

/-! ## Concrete walk scenarios

Small filesystems that exercise the walker.  All use a project root matching
the file locations, the dev cache directory `/c`, no alias rules, and no
host environment unless stated.  Since `sha1` is modelled as the identity,
artifact names spell out their key; only their role as store keys matters. -/

/-- The origin marker appended to every emitted artifact
(`src/index.js:384`). -/
def srcMarker (p : String) : String := "\n//# sourceURL=" ++ toURL p

def childText : String := "export const x = 1;"

/-- Artifact of the leaf child module `/r/b.js`. -/
def artChild : String := artifactFile "/c" "/r/b.js" childText

def fsSide : List FileEntry :=
  [⟨"/r/a.js", "import \"./b.js\";", true, 0⟩, ⟨"/r/b.js", childText, true, 0⟩]

def ctxSide : Ctx := ⟨"/r", "/c", [], fsSide, none, none, fun _ _ => none⟩

def artSide : String := artifactFile "/c" "/r/a.js" ("import \"" ++ toURL artChild ++ "\";")

def fsFrom : List FileEntry :=
  [⟨"/r/a.js", "import x from \"./b.js\";", true, 0⟩, ⟨"/r/b.js", childText, true, 0⟩]

def ctxFrom : Ctx := ⟨"/r", "/c", [], fsFrom, none, none, fun _ _ => none⟩

def artFrom : String :=
  artifactFile "/c" "/r/a.js" ("import x from \"" ++ toURL artChild ++ "\";")

def fsExp : List FileEntry :=
  [⟨"/r/a.js", "export \x7b x \x7d from \"./b.js\";", true, 0⟩, ⟨"/r/b.js", childText, true, 0⟩]

def ctxExp : Ctx := ⟨"/r", "/c", [], fsExp, none, none, fun _ _ => none⟩

def artExp : String :=
  artifactFile "/c" "/r/a.js" ("export \x7b x \x7d from \"" ++ toURL artChild ++ "\";")

/-- A module whose only specifier occurrence is a dynamic import of an
existing sibling file. -/
def dynText : String := "const w = import(\"./b.js\");"

def fsDyn : List FileEntry :=
  [⟨"/r/a.js", dynText, true, 0⟩, ⟨"/r/b.js", childText, true, 0⟩]

def ctxDyn : Ctx := ⟨"/r", "/c", [], fsDyn, none, none, fun _ _ => none⟩

def artDyn : String := artifactFile "/c" "/r/a.js" dynText

/-- An existing but unreadable file (e.g. permissions), reached through the
three import shapes in turn. -/
def badEntry : FileEntry := ⟨"/r/bad.js", "zzz", false, 0⟩

def fsBadSide : List FileEntry := [⟨"/r/a.js", "import \"./bad.js\";", true, 0⟩, badEntry]

def ctxBadSide : Ctx := ⟨"/r", "/c", [], fsBadSide, none, none, fun _ _ => none⟩

def fsBadFrom : List FileEntry :=
  [⟨"/r/a.js", "import x from \"./bad.js\";", true, 0⟩, badEntry]

def ctxBadFrom : Ctx := ⟨"/r", "/c", [], fsBadFrom, none, none, fun _ _ => none⟩

def fsBadExp : List FileEntry :=
  [⟨"/r/a.js", "export \x7b x \x7d from \"./bad.js\";", true, 0⟩, badEntry]

def ctxBadExp : Ctx := ⟨"/r", "/c", [], fsBadExp, none, none, fun _ _ => none⟩

def artBadExp : String :=
  artifactFile "/c" "/r/a.js" "export \x7b x \x7d from \"./bad.js\";"

/-- A project containing a file that shadows the bare package name under the
project root, with no host resolver available. -/
def ctxC3probe : Ctx :=
  ⟨"/root", "/c", [], [⟨"/root/left-pad.js", "", true, 0⟩], none, none, fun _ _ => none⟩

def fsC3 : List FileEntry := [⟨"/root/main.js", "import lp from \"left-pad\";", true, 0⟩]

/-- The same bare import with a host resolver available that answers
nothing. -/
def ctxC3res : Ctx := ⟨"/root", "/c", [], fsC3, some (fun _ _ => none), none, fun _ _ => none⟩

def artC3 : String := artifactFile "/c" "/root/main.js" "import lp from \"left-pad\";"

/-- Build-mode bundle scenarios: one chunk with a known reference id, one
with two occurrences of it, one with an unknown reference id. -/
def gbKnown : String → Option String :=
  fun r => if r = "abc123" then some "chunk-abc.mjs" else none

def chunkEntry : BundleItem :=
  ⟨"entry.mjs", true, "export default __VITE_NODE_WORKER_ASSET__abc123__"⟩

def chunkTwo : BundleItem :=
  ⟨"entry.mjs", true,
   "a(__VITE_NODE_WORKER_ASSET__abc123__, __VITE_NODE_WORKER_ASSET__abc123__)"⟩

def chunkUnknown : BundleItem :=
  ⟨"entry2.mjs", true, "export default __VITE_NODE_WORKER_ASSET__zzz__"⟩

/-- The two-file import cycle of `a` and `b` importing each other. -/
def fsCyc : List FileEntry :=
  [⟨"/r/a.js", "import \"./b.js\";", true, 0⟩, ⟨"/r/b.js", "import \"./a.js\";", true, 0⟩]

def ctxCyc : Ctx := ⟨"/r", "/c", [], fsCyc, none, none, fun _ _ => none⟩

/-- Rewritten text of `b`: its inbound cycle edge keeps the original
`/r/a.js` reference. -/
def outCycB : String := "import \"file:///r/a.js\";"

def artCycB : String := artifactFile "/c" "/r/b.js" outCycB

/-- Rewritten text of `a`: its edge points at the emitted artifact of `b`. -/
def outCycA : String := "import \"" ++ toURL artCycB ++ "\";"

def artCycA : String := artifactFile "/c" "/r/a.js" outCycA

/-- Two imports of the same file through Vite's `/@fs/` pseudo-path. -/
def fsAtFs : List FileEntry :=
  [⟨"/r/a.js", "import \"file:///@fs/x.js\";\nimport \"file:///@fs/x.js\";", true, 0⟩,
   ⟨"/x.js", "export const v = 1;", true, 0⟩]

def ctxAtFs : Ctx := ⟨"/r", "/c", [], fsAtFs, none, none, fun _ _ => none⟩

/-- The same file imported twice through plain relative specifiers of
*different* shapes — a side-effect import, then an import-from — so the two
occurrences are spliced by different passes over the shared buffer. -/
def fsDup : List FileEntry :=
  [⟨"/r/a.js", "import \"./b.js\";\nimport x from \"./b.js\";", true, 0⟩,
   ⟨"/r/b.js", childText, true, 0⟩]

def ctxDup : Ctx := ⟨"/r", "/c", [], fsDup, none, none, fun _ _ => none⟩

/-- The same file imported twice through specifiers of the *same* shape
(two side-effect imports), both handled by one pass. -/
def fsDup2 : List FileEntry :=
  [⟨"/r/a.js", "import \"./b.js\";\nimport \"./b.js\";", true, 0⟩,
   ⟨"/r/b.js", childText, true, 0⟩]

def ctxDup2 : Ctx := ⟨"/r", "/c", [], fsDup2, none, none, fun _ _ => none⟩

def outDup2A : String :=
  "import \"" ++ toURL artChild ++ "\";\nimport \"" ++ toURL artChild ++ "\";"

def artDup2A : String := artifactFile "/c" "/r/a.js" outDup2A

/-- A TypeScript entry whose transpiler collaborator always throws. -/
def tsText : String := "export const x: number = 1;"

def fsTs : List FileEntry := [⟨"/r/t.ts", tsText, true, 5⟩]

def ctxTs : Ctx := ⟨"/r", "/c", [], fsTs, none, none, fun _ _ => none⟩

def artTs : String := artifactFile "/c" "/r/t.ts" tsText

/-- A dev-mode load context over an empty project. -/
def lcServe : LoadCtx :=
  ⟨true, "/r", fun _ _ => none, fun _ _ => none,
   ⟨"/r", "/c", [], [], none, none, fun _ _ => none⟩, 5, fun _ => "ref"⟩

/-- Probe scenario: the exact extensionless base exists. -/
def probeFsExact : List FileEntry := [⟨"/r/util", "", true, 0⟩]

/-- Probe scenario: both `.ts` and `.js` siblings exist, no exact base. -/
def probeFsBoth : List FileEntry :=
  [⟨"/r/util.js", "", true, 0⟩, ⟨"/r/util.ts", "", true, 0⟩]

/-- Probe scenario: only a directory index file exists. -/
def probeFsIndex : List FileEntry := [⟨"/r/lib/index.ts", "", true, 0⟩]

/-! ## Helper lemmas -/

theorem find?_append_singleton {α : Type} (p : α → Bool) (l : List α) (x : α)
    (h : l.find? p = none) (hx : p x = true) : (l ++ [x]).find? p = some x := by
  induction l with
  | nil => simp [List.find?_cons, hx]
  | cons a t ih =>
    have hpa : p a = false := by
      cases hpa : p a
      · rfl
      · rw [List.find?_cons_of_pos _ hpa] at h; cases h
    rw [List.find?_cons_of_neg _ (by simp [hpa])] at h
    rw [List.cons_append, List.find?_cons_of_neg _ (by simp [hpa])]
    exact ih h

theorem lookupKV_append_self (l : List (String × String)) (k v : String)
    (h : lookupKV l k = none) : lookupKV (l ++ [(k, v)]) k = some v := by
  have hf : l.find? (fun e => e.1 = k) = none := by
    unfold lookupKV at h
    cases hx : l.find? (fun e => e.1 = k) with
    | none => rfl
    | some e => rw [hx] at h; simp at h
  unfold lookupKV
  rw [find?_append_singleton _ l (k, v) hf (by simp)]
  rfl

/-! ## Claim theorems -/

/-- C1, counterexample: in the per-file rewrite, a dynamic-import occurrence
whose embedded specifier resolves to a different existing file is *not*
rewritten: the walker emits the module text unchanged and never reads the
child.  The occurrence is a dynamic import by the source's own (unused)
`RE.dynImport` pattern, and its specifier does resolve to `/r/b.js`. -/
theorem claim1_dyn_import_counterexample :
    (rewriteEntry ctxDyn 10 "/r/a.js").1 = .ok (toURL artDyn)
    ∧ lookupKV (rewriteEntry ctxDyn 10 "/r/a.js").2.devStore artDyn
        = some (dynText ++ srcMarker "/r/a.js")
    ∧ (rewriteEntry ctxDyn 10 "/r/a.js").2.reads = ["/r/a.js"]
    ∧ scanDynImport dynText = [⟨18, "./b.js"⟩]
    ∧ resolveToFs ctxDyn "./b.js" "/r/a.js" = some "/r/b.js" :=
  ⟨rfl, by decide, by decide, by decide, by decide⟩

/-- C1, amended: the rewrite scans three specifier shapes — side-effect-only
imports, imports-from, re-exports-from — and for each, a specifier resolving
to a different file has the child recursively rewritten and the child's
output reference spliced in place of the specifier text; dynamic imports are
not among the scanned shapes (the dynamic-import pattern exists in the `RE`
table but no pass applies it), so a dynamic-import specifier is left
byte-for-byte unchanged and its target is never visited. -/
theorem claim1_amended_three_shapes :
    ((rewriteEntry ctxSide 10 "/r/a.js").1 = .ok (toURL artSide)
      ∧ (rewriteEntry ctxSide 10 "/r/a.js").2.reads = ["/r/a.js", "/r/b.js"])
    ∧ ((rewriteEntry ctxFrom 10 "/r/a.js").1 = .ok (toURL artFrom)
      ∧ (rewriteEntry ctxFrom 10 "/r/a.js").2.reads = ["/r/a.js", "/r/b.js"])
    ∧ ((rewriteEntry ctxExp 10 "/r/a.js").1 = .ok (toURL artExp)
      ∧ (rewriteEntry ctxExp 10 "/r/a.js").2.reads = ["/r/a.js", "/r/b.js"])
    ∧ ((rewriteEntry ctxDyn 10 "/r/a.js").1 = .ok (toURL artDyn)
      ∧ (rewriteEntry ctxDyn 10 "/r/a.js").2.reads = ["/r/a.js"]) :=
  ⟨⟨rfl, by decide⟩, ⟨rfl, by decide⟩, ⟨rfl, by decide⟩, ⟨rfl, by decide⟩⟩

/-- C2, counterexample: a read failure behind a re-export-from edge is *not*
propagated: `/r/bad.js` exists, resolves from the re-export specifier, and is
unreadable, yet the top-level rewrite succeeds, emitting the importer with
its re-export text unchanged — the failed subtree is silently skipped. -/
theorem claim2_export_from_swallows_counterexample :
    resolveToFs ctxBadExp "./bad.js" "/r/a.js" = some "/r/bad.js"
    ∧ findFs fsBadExp "/r/bad.js" = some badEntry
    ∧ badEntry.readable = false
    ∧ (rewriteEntry ctxBadExp 10 "/r/a.js").1 = .ok (toURL artBadExp)
    ∧ lookupKV (rewriteEntry ctxBadExp 10 "/r/a.js").2.devStore artBadExp
        = some ("export \x7b x \x7d from \"./bad.js\";" ++ srcMarker "/r/a.js") :=
  ⟨by decide, by decide, by decide, rfl, by decide⟩

/-- C2, amended: a failure to read a source file reached through a
side-effect import or an import-from edge is propagated to the top-level
rewrite caller as a hard error; a read failure behind a re-export-from edge
is caught by the walker, logged only under the debug toggle, and the
re-export pass of that importer is skipped while the walk continues. -/
theorem claim2_amended_propagation :
    (rewriteEntry ctxBadSide 10 "/r/a.js").1 = .error (.readFailure "/r/bad.js")
    ∧ (rewriteEntry ctxBadFrom 10 "/r/a.js").1 = .error (.readFailure "/r/bad.js")
    ∧ (rewriteEntry ctxBadExp 10 "/r/a.js").1 = .ok (toURL artBadExp) :=
  ⟨rfl, rfl, rfl⟩

/-- C3, counterexample: with no external resolver collaborator available, a
bare specifier left unchanged by the Alias Table does *not* make `resolve`
return null: it falls through and is probed as a project-root-relative file,
here resolving `left-pad` to the shadowing file `/root/left-pad.js`. -/
theorem claim3_bare_fallthrough_counterexample :
    isBareSpec "left-pad" = true
    ∧ applyAliases "left-pad" ctxC3probe.aliases = "left-pad"
    ∧ ctxC3probe.resolveIdEnv = none
    ∧ resolveToFs ctxC3probe "left-pad" "/root/main.js" = some "/root/left-pad.js" :=
  ⟨by decide, by decide, rfl, by decide⟩

/-- C3, amended: for a bare specifier left unchanged by the Alias Table —
when an external resolver collaborator is available and returns no answer,
`resolve` returns null and the import statement's text is left byte-for-byte
unchanged by the rewrite; when no collaborator is available, the specifier
falls through and *is* probed as a project-root-relative file (returning
null only when that probe finds nothing). -/
theorem claim3_amended_bare_resolution (ctx : Ctx) (spec fromFile : String)
    (f : String → String → Option RId) :
    (isBareSpec spec = true → applyAliases spec ctx.aliases = spec →
      ctx.resolveIdEnv = some f → f spec fromFile = none →
      resolveToFs ctx spec fromFile = none)
    ∧ (isBareSpec spec = true → applyAliases spec ctx.aliases = spec →
      ctx.resolveIdEnv = none → spec ≠ "" → externalScheme spec = false →
      ((if startsWithStr spec "node:" then spec.drop 5 else spec) ∈ NODE_BUILTINS → False) →
      resolveToFs ctx spec fromFile
        = tryResolveFileLike ctx.fs (pathResolve ctx.projectRoot spec))
    ∧ lookupKV (rewriteEntry ctxC3res 10 "/root/main.js").2.devStore artC3
        = some ("import lp from \"left-pad\";" ++ srcMarker "/root/main.js") := by
  refine ⟨?_, ?_, by decide⟩
  · intro hb ha he hf
    simp [resolveToFs, hb, ha, he, hf]
  · intro hb ha he hne hext hnb
    have hb' := hb
    simp only [isBareSpec, Bool.and_eq_true, Bool.not_eq_true'] at hb'
    obtain ⟨⟨⟨h1, h2⟩, h3⟩, h4⟩ := hb'
    simp [resolveToFs, hb, ha, he, hne, hext, hnb, resolveTail, h1, h2, h3, isAbsolute]
    intro hm
    exact absurd hm hnb

/-- Witness for the amended C3 at concrete inputs: the resolver-answers-
nothing case returns null, and the no-resolver case probes the project
root. -/
theorem claim3_amended_bare_resolution_witness :
    resolveToFs ctxC3res "left-pad" "/root/main.js" = none
    ∧ resolveToFs ctxC3probe "left-pad" "/root/main.js"
        = tryResolveFileLike ctxC3probe.fs (pathResolve "/root" "left-pad") :=
  ⟨(claim3_amended_bare_resolution ctxC3res "left-pad" "/root/main.js"
      (fun _ _ => none)).1 (by decide) (by decide) rfl rfl,
   (claim3_amended_bare_resolution ctxC3probe "left-pad" "/root/main.js"
      (fun _ _ => none)).2.1 (by decide) (by decide) rfl (by decide) (by decide)
      (by decide)⟩

/-- C4, counterexample: a placeholder whose reference id the bundler does
not know (`getFileName` throws) does *not* cause a hard error in
`generateBundle`: the occurrence is skipped and the placeholder is left
verbatim in the shipped output. -/
theorem claim4_unknown_placeholder_counterexample :
    generateBundle (fun _ => none) [chunkUnknown] = [chunkUnknown]
    ∧ containsSub chunkUnknown.code ASSET_TOKEN = true
    ∧ scanAssetRefs chunkUnknown.code = [(15, 46, "zzz")] :=
  ⟨by decide, by decide, by decide⟩

/-- C4, amended: during final-output processing every placeholder whose
referenced unit was emitted is found and substituted exactly once with the
bundler-assigned path made relative to the referencing output (an emitted
unit `chunk-abc.mjs` referenced from `entry.mjs` becomes the literal
`"./chunk-abc.mjs"`); a placeholder whose referenced unit was never emitted
is skipped without an error and left unsubstituted in the output. -/
theorem claim4_amended_substitution :
    generateBundle gbKnown [chunkEntry, chunkTwo, chunkUnknown]
      = [⟨"entry.mjs", true, "export default \"./chunk-abc.mjs\""⟩,
         ⟨"entry.mjs", true, "a(\"./chunk-abc.mjs\", \"./chunk-abc.mjs\")"⟩,
         chunkUnknown]
    ∧ toRelativePath "chunk-abc.mjs" "entry.mjs" = "./chunk-abc.mjs"
    ∧ gbKnown "abc123" = some "chunk-abc.mjs"
    ∧ gbKnown "zzz" = none :=
  ⟨by decide, by decide, by decide, by decide⟩

/-- C5: cycle safety.  First, the general cycle guard: re-entering a path
that is currently in the visiting set returns a reference to the *original*
file, with the walk state untouched (no recursion, no read, no emit).
Second, on the concrete two-file cycle, a walk started at `a` terminates
successfully; the emitted artifact of `b` still references the original
`/r/a.js` (the one unrewritten edge of the cycle) while the emitted artifact
of `a` references `b`'s rewritten artifact, and the visiting set is released
at the end. -/
theorem claim5_cycle_safety (ctx : Ctx) (fuel : Nat) (st : St) (p : String) :
    (skipExt p = false → p ∈ st.active →
      rewriteModule ctx (fuel + 1) st p = (.ok (toURL p), st))
    ∧ (rewriteEntry ctxCyc 10 "/r/a.js").1 = .ok (toURL artCycA)
    ∧ lookupKV (rewriteEntry ctxCyc 10 "/r/a.js").2.devStore artCycB
        = some (outCycB ++ srcMarker "/r/b.js")
    ∧ lookupKV (rewriteEntry ctxCyc 10 "/r/a.js").2.devStore artCycA
        = some (outCycA ++ srcMarker "/r/a.js")
    ∧ (rewriteEntry ctxCyc 10 "/r/a.js").2.active = [] := by
  refine ⟨?_, rfl, by decide, by decide, by decide⟩
  intro hskip hact
  show rewriteStep ctx _ st p = _
  simp [rewriteStep, hskip, hact]

/-- Witness for C5's guard conjunct at a concrete visiting state. -/
theorem claim5_cycle_safety_witness :
    rewriteModule ctxCyc 4 ({ active := ["/r/a.js"] } : St) "/r/a.js"
      = (.ok (toURL "/r/a.js"), ({ active := ["/r/a.js"] } : St)) :=
  (claim5_cycle_safety ctxCyc 3 ({ active := ["/r/a.js"] } : St) "/r/a.js").1
    (by decide) (by decide)

/-- C6, counterexample: a file imported twice through Vite's `/@fs/`
pseudo-path is read *twice* in one walk.  The memo is checked under the
path string as passed (`/@fs/x.js`) but filled under the stripped path
(`/x.js`), so the second occurrence misses the memo and `/x.js` is read
again — refuting that every file imported more than once is read exactly
once. -/
theorem claim6_atfs_double_read_counterexample :
    resolveToFs ctxAtFs "file:///@fs/x.js" "/r/a.js" = some "/@fs/x.js"
    ∧ (rewriteEntry ctxAtFs 10 "/r/a.js").2.reads = ["/r/a.js", "/x.js", "/x.js"]
    ∧ ¬ (rewriteEntry ctxAtFs 10 "/r/a.js").2.reads.Nodup :=
  ⟨by decide, by decide, by decide⟩

/-- C6, amended: within one walk, a second visit of an already-completed
path — under the same path string — returns the memoized output URL with the
state untouched (no read, no transpile, no write), so a file imported N>1
times is read and transpiled exactly once whenever the imports reach it
under the same plain path string.  All N rewritten references denote the
same artifact when the occurrences are spliced by one pass: on the concrete
walk with two side-effect imports of `/r/b.js`, each file is read once, only
two artifacts are written, and both spliced references equal `b`'s artifact
URL.  Two qualifications the code imposes: occurrences reaching a file
through the `/@fs/` pseudo-path are memoized under a different string and
re-read it; and when the N imports span different shapes whose passes both
splice (a side-effect import followed by an import-from of the same file),
the shared edit buffer keeps original coordinates, the second pass's
overwrite lands beyond the original length, and the walk of that importer
fails with `end is out of bounds` instead of producing rewritten references
— the child is still read only once before the failure. -/
theorem claim6_amended_memoization (ctx : Ctx) (fuel : Nat) (st : St) (p u : String) :
    (skipExt p = false → p ∉ st.active → lookupKV st.cache p = some u →
      rewriteModule ctx (fuel + 1) st p = (.ok u, st))
    ∧ (rewriteEntry ctxDup2 10 "/r/a.js").1 = .ok (toURL artDup2A)
    ∧ (rewriteEntry ctxDup2 10 "/r/a.js").2.reads = ["/r/a.js", "/r/b.js"]
    ∧ (rewriteEntry ctxDup2 10 "/r/a.js").2.writes = [artChild, artDup2A]
    ∧ lookupKV (rewriteEntry ctxDup2 10 "/r/a.js").2.devStore artDup2A
        = some (outDup2A ++ srcMarker "/r/a.js")
    ∧ (rewriteEntry ctxDup 10 "/r/a.js").1 = .error (.msError "end is out of bounds")
    ∧ (rewriteEntry ctxDup 10 "/r/a.js").2.reads = ["/r/a.js", "/r/b.js"]
    ∧ (rewriteEntry ctxDup 10 "/r/a.js").2.writes = [artChild] := by
  refine ⟨?_, rfl, by decide, by decide, by decide, rfl, by decide, by decide⟩
  intro hskip hact hc
  show rewriteStep ctx _ st p = _
  simp [rewriteStep, hskip, hact, hc]

/-- Witness for C6's memo conjunct at a concrete completed state. -/
theorem claim6_amended_memoization_witness :
    rewriteModule ctxDup2 1 ({ cache := [("/r/b.js", toURL artChild)] } : St) "/r/b.js"
      = (.ok (toURL artChild), ({ cache := [("/r/b.js", toURL artChild)] } : St)) :=
  (claim6_amended_memoization ctxDup2 0 ({ cache := [("/r/b.js", toURL artChild)] } : St)
      "/r/b.js" (toURL artChild)).1 (by decide) (by decide) (by decide)

/-- C7, counterexample: for a TypeScript file (a dialect that does not
permit direct execution) whose transpiler throws, the rewrite of the subtree
is *not* fatal: the walk succeeds and the artifact ships the original,
untranspiled TypeScript text. -/
theorem claim7_transpile_failure_counterexample :
    ctxTs.transpile tsText "/r/t.ts" = none
    ∧ isTsLike (lowerStr (extname "/r/t.ts")) = true
    ∧ (rewriteEntry ctxTs 10 "/r/t.ts").1 = .ok (toURL artTs)
    ∧ lookupKV (rewriteEntry ctxTs 10 "/r/t.ts").2.devStore artTs
        = some (tsText ++ srcMarker "/r/t.ts") :=
  ⟨rfl, by decide, rfl, by decide⟩

/-- C7, amended: when transpilation of a file fails, the failure is logged
(only under the debug toggle) and the original text is passed through for
*every* dialect — a transpile failure is never fatal to the rewrite of the
subtree; dialects that need no transpilation never invoke the transpiler. -/
theorem claim7_amended_transpile_passthrough (ctx : Ctx) (st : St) (p : String)
    (entry : FileEntry) :
    (ctx.transpile entry.content p = none →
      transpileStep ctx st p entry
        = (.ok (.src entry.content), { st with transpiles := st.transpiles ++ [p] }))
    ∧ (rewriteEntry ctxTs 10 "/r/t.ts").1 = .ok (toURL artTs)
    ∧ (rewriteEntry ctxTs 10 "/r/t.ts").2.transpiles = ["/r/t.ts"] := by
  refine ⟨?_, rfl, by decide⟩
  intro hf
  simp [transpileStep, hf]

/-- Witness for C7's pass-through conjunct at the concrete TS entry. -/
theorem claim7_amended_transpile_passthrough_witness :
    transpileStep ctxTs ({} : St) "/r/t.ts" ⟨"/r/t.ts", tsText, true, 5⟩
      = (.ok (.src tsText), ({ transpiles := ["/r/t.ts"] } : St)) :=
  (claim7_amended_transpile_passthrough ctxTs ({} : St) "/r/t.ts"
    ⟨"/r/t.ts", tsText, true, 5⟩).1 rfl

/-- C8: extension probing of an extensionless base tries, over any
filesystem, the exact base first, then the base with each extension of the
ordered preference list (TypeScript-family before plain script extensions),
then `index.<ext>` under the base as a directory, the first existing regular
file winning: `/r/util` resolves to itself when present; to `/r/util.ts`
whenever the base is absent and `util.ts` exists (in particular when
`util.js` also exists); and `/r/lib` with no direct file resolves to
`/r/lib/index.ts` when present. -/
theorem claim8_probe_order (fs : List FileEntry) :
    (fileExistsFs fs "/r/util" = true →
      tryResolveFileLike fs "/r/util" = some "/r/util")
    ∧ (fileExistsFs fs "/r/util" = false → fileExistsFs fs "/r/util.ts" = true →
      tryResolveFileLike fs "/r/util" = some "/r/util.ts")
    ∧ (fileExistsFs fs "/r/lib" = false → fileExistsFs fs "/r/lib.ts" = false →
      fileExistsFs fs "/r/lib.tsx" = false → fileExistsFs fs "/r/lib.mts" = false →
      fileExistsFs fs "/r/lib.cts" = false → fileExistsFs fs "/r/lib.js" = false →
      fileExistsFs fs "/r/lib.mjs" = false → fileExistsFs fs "/r/lib.cjs" = false →
      fileExistsFs fs "/r/lib/index.ts" = true →
      tryResolveFileLike fs "/r/lib" = some "/r/lib/index.ts") := by
  have hu : tryResolveFileLike fs "/r/util"
      = List.find? (fun c => fileExistsFs fs c)
          ["/r/util", "/r/util.ts", "/r/util.tsx", "/r/util.mts", "/r/util.cts",
           "/r/util.js", "/r/util.mjs", "/r/util.cjs", "/r/util/index.ts",
           "/r/util/index.tsx", "/r/util/index.mts", "/r/util/index.cts",
           "/r/util/index.js", "/r/util/index.mjs", "/r/util/index.cjs"] := rfl
  have hl : tryResolveFileLike fs "/r/lib"
      = List.find? (fun c => fileExistsFs fs c)
          ["/r/lib", "/r/lib.ts", "/r/lib.tsx", "/r/lib.mts", "/r/lib.cts",
           "/r/lib.js", "/r/lib.mjs", "/r/lib.cjs", "/r/lib/index.ts",
           "/r/lib/index.tsx", "/r/lib/index.mts", "/r/lib/index.cts",
           "/r/lib/index.js", "/r/lib/index.mjs", "/r/lib/index.cjs"] := rfl
  refine ⟨?_, ?_, ?_⟩
  · intro h1
    rw [hu]
    simp [List.find?_cons, h1]
  · intro h1 h2
    rw [hu]
    simp [List.find?_cons, h1, h2]
  · intro h1 h2 h3 h4 h5 h6 h7 h8 h9
    rw [hl]
    simp [List.find?_cons, h1, h2, h3, h4, h5, h6, h7, h8, h9]

/-- Witness for C8 on three concrete filesystems: the exact base wins, the
`.ts` sibling beats the coexisting `.js` sibling, and the directory index is
found. -/
theorem claim8_probe_order_witness :
    tryResolveFileLike probeFsExact "/r/util" = some "/r/util"
    ∧ tryResolveFileLike probeFsBoth "/r/util" = some "/r/util.ts"
    ∧ tryResolveFileLike probeFsIndex "/r/lib" = some "/r/lib/index.ts" :=
  ⟨(claim8_probe_order probeFsExact).1 (by decide),
   (claim8_probe_order probeFsBoth).2.1 (by decide) (by decide),
   (claim8_probe_order probeFsIndex).2.2 (by decide) (by decide) (by decide)
     (by decide) (by decide) (by decide) (by decide) (by decide) (by decide)⟩

/-- C9: the artifact store key is computed over the pair of original path
and final rewritten text (`sha1` is modelled as an injective encoding of its
input; the hex truncation is a collision-freeness assumption outside the
embedding).  Distinct source paths with identical rewritten text get
distinct artifact files; an emit whose artifact already exists performs no
state change and no write; and re-emitting the same `(path, text)` pair
right after a first emit finds the artifact and writes nothing new
(check-exists-before-write, write-once). -/
theorem claim9_store_key (ctx : Ctx) (cd p1 p2 p out : String) (st : St) :
    (p1 ≠ p2 → artifactFile cd p1 out ≠ artifactFile cd p2 out)
    ∧ ((lookupKV st.devStore (artifactFile ctx.cacheDir p out)).isSome = true →
      emitArtifact ctx p out st = (toURL (artifactFile ctx.cacheDir p out), st))
    ∧ emitArtifact ctx p out (emitArtifact ctx p out st).2
        = (toURL (artifactFile ctx.cacheDir p out), (emitArtifact ctx p out st).2) := by
  refine ⟨?_, ?_, ?_⟩
  · intro h he
    apply h
    unfold artifactFile sha1 at he
    have hd := congrArg String.data he
    simp only [String.data_append, List.append_assoc] at hd
    exact String.ext (List.append_cancel_right
      (List.append_cancel_left (List.append_cancel_left hd)))
  · intro h
    simp [emitArtifact, h]
  · by_cases h : (lookupKV st.devStore (artifactFile ctx.cacheDir p out)).isSome = true
    · simp [emitArtifact, h]
    · have hn : lookupKV st.devStore (artifactFile ctx.cacheDir p out) = none := by
        cases hx : lookupKV st.devStore (artifactFile ctx.cacheDir p out)
        · rfl
        · rw [hx] at h; simp at h
      have hs := lookupKV_append_self st.devStore (artifactFile ctx.cacheDir p out)
        (out ++ "\n//# sourceURL=" ++ toURL p) hn
      simp only [emitArtifact, hn, Option.isSome_none, Bool.false_eq_true, if_false]
      simp only [hs, Option.isSome_some, if_true]

/-- Witness for C9: distinct paths with identical text give distinct
artifacts, and an emit over an existing artifact leaves the state as it
is. -/
theorem claim9_store_key_witness :
    artifactFile "/c" "/r/p.js" "t" ≠ artifactFile "/c" "/r/q.js" "t"
    ∧ emitArtifact ctxTs "/r/t.ts" "t"
        ({ devStore := [(artifactFile "/c" "/r/t.ts" "t", "x")] } : St)
      = (toURL (artifactFile "/c" "/r/t.ts" "t"),
         ({ devStore := [(artifactFile "/c" "/r/t.ts" "t", "x")] } : St)) :=
  ⟨(claim9_store_key ctxTs "/c" "/r/p.js" "/r/q.js" "/r/t.ts" "t" ({} : St)).1
      (by decide),
   (claim9_store_key ctxTs "/c" "/r/p.js" "/r/q.js" "/r/t.ts" "t"
      ({ devStore := [(artifactFile "/c" "/r/t.ts" "t", "x")] } : St)).2.1
      (by decide)⟩

/-- C10: a request id whose query carries neither the `nodeWorker` nor the
`modulePath` parameter — including ids with no query at all — is answered by
neither hook: `resolveId` and `load` both return nothing (JS `undefined`),
so the request passes through to other plugins. -/
theorem claim10_pass_through (lc : LoadCtx) (id importer : String)
    (h : ∀ q, parseRequest id = some q →
      qHas q "nodeWorker" = false ∧ qHas q "modulePath" = false) :
    resolveIdHook id importer = none ∧ loadHook lc id = none := by
  cases hpr : parseRequest id with
  | none => exact ⟨by simp [resolveIdHook, hpr], by simp [loadHook, hpr]⟩
  | some q =>
    obtain ⟨hw, hm⟩ := h q hpr
    refine ⟨by simp [resolveIdHook, hpr, hw, hm], ?_⟩
    cases hgi : qGet q "importer" with
    | none => simp [loadHook, hpr, hgi]
    | some imp =>
      cases hserve : lc.isServe with
      | true => simp [loadHook, hpr, hgi, hserve, hw, hm]
      | false => simp [loadHook, hpr, hgi, hserve, hw, hm]

/-- Witness for C10 on concrete ids: one with a foreign query carrying an
`importer` parameter (the deep path of `load`), one with no query at all. -/
theorem claim10_pass_through_witness :
    (resolveIdHook "/a/b.js?foo=1&importer=/x.js" "/x.js" = none
      ∧ loadHook lcServe "/a/b.js?foo=1&importer=/x.js" = none)
    ∧ (resolveIdHook "/a/b.js" "/x.js" = none ∧ loadHook lcServe "/a/b.js" = none) :=
  ⟨claim10_pass_through lcServe "/a/b.js?foo=1&importer=/x.js" "/x.js"
      (fun q hq => by
        rw [show parseRequest "/a/b.js?foo=1&importer=/x.js"
            = some [("foo", "1"), ("importer", "/x.js")] from rfl] at hq
        cases hq
        exact ⟨rfl, rfl⟩),
   claim10_pass_through lcServe "/a/b.js" "/x.js"
      (fun q hq => by
        rw [show parseRequest "/a/b.js" = none from rfl] at hq
        cases hq)⟩

end VNW
